import Mathlib

/-!
Shallow embedding of the offline task queue and reconciliation logic of
`src/services/taskService.ts` (class `TaskService`), with proofs of the
specification's properties P1-P5 and the related claims.

Modelling conventions:
* The `AsyncStorage` state is a record `St`: the serialized task collection
  (key `'tasks'`) and the offline action queue (key `'offline_actions'`).
  An absent key and an empty collection behave identically in the source
  (`getStoredTasks` / `getOfflineActions` return `[]` for both), so both are
  modelled as `[]`.
* Each remote HTTP call is modelled by an outcome parameter chosen by the
  environment: the call either rejects (`netError`), or settles into a
  response with an `ok` flag and a body; a body on which `response.json()`
  throws (malformed) is `none`.
* The date strings exchanged with the server (`due_date`) and the JS `Date`
  objects derived from them are both modelled as `JSDate` calendar values:
  the transport-level string/`Date` conversion (`new Date(s)`) is the
  identity on that value.
* Values of `Date.now()` and the random suffixes of `generateId` are passed
  as explicit parameters at each call site that draws on the clock or RNG.
* Exceptions thrown by the service (`'User not authenticated'`,
  `'Task not found'`) become an `Except Err` result; the storage state is
  returned alongside so that "state unchanged on throw" is expressible.
-/

namespace TaskService

/-- Model of a JS `Date` value: the calendar-day components returned by
`getFullYear` / `getMonth` / `getDate`, plus the remaining time of day. -/
structure JSDate where
  year : Int
  month : Nat
  day : Nat
  msOfDay : Nat
deriving DecidableEq

/-- Model of `new Date(d.getFullYear(), d.getMonth(), d.getDate())`: midnight
of `d`'s calendar day.  Two such normalized dates have equal `getTime()` iff
their day components are equal (getter-derived components are canonical), so
`getTime()` equality is modelled as equality of the normalized values. -/
def dayStart (d : JSDate) : JSDate := ⟨d.year, d.month, d.day, 0⟩

/-- Model of the `user` field of a task (interface `Task`, lines 11-14). -/
structure TaskUser where
  id : Int
  username : String
deriving DecidableEq

/-- Model of interface `Task` (taskService.ts lines 5-18).  Optional TS
fields are `Option`; `due_date : string | null` and the derived
`dueDate : Date | undefined` are both `Option JSDate`. -/
structure Task where
  id : Int
  title : String
  completed : Option Bool
  due_date : Option JSDate
  dueDate : Option JSDate
  user : TaskUser
  userId : Option String
  isLocal : Option Bool
  needsSync : Option Bool
deriving DecidableEq

/-- Model of a task record as delivered by the backend (spec section 6:
`{id, title, completed, due_date, user}`); it carries none of the
client-only fields (`isLocal`, `needsSync`, `dueDate`, `userId`). -/
structure BackendTask where
  id : Int
  title : String
  completed : Option Bool
  due_date : Option JSDate
  user : TaskUser
deriving DecidableEq

/-- Model of interface `TasksResponse` (lines 20-27). -/
structure TasksResponse where
  status_code : Int
  message_id : String
  message_en : String
  data : List BackendTask
deriving DecidableEq

/-- Body delivered by a successful `POST /tasks` (used at lines 180-220). -/
structure CreateResponse where
  status_code : Int
  data : BackendTask
deriving DecidableEq

/-- Body delivered by a successful `PUT /tasks/{id}` (lines 283-293). -/
structure UpdateResponse where
  status_code : Int
  data : BackendTask
deriving DecidableEq

/-- Body delivered by a successful `DELETE /tasks/{id}` (lines 345-353);
only its `status_code` is inspected. -/
structure DeleteResponse where
  status_code : Int
deriving DecidableEq

/-- Outcome of one `fetch(...)` call, chosen by the environment: `netError`
models the promise rejecting (no connectivity); `resp ok body` models a
settled response with `response.ok = ok` whose `response.json()` yields
`body` (`none` meaning `json()` throws on a malformed body). -/
inductive RespOutcome (β : Type) where
  | netError
  | resp (ok : Bool) (body : Option β)
deriving DecidableEq

/-- Model of interface `CreateTaskData` (lines 29-32). -/
structure CreateTaskData where
  title : String
  dueDate : Option JSDate
deriving DecidableEq

/-- Model of interface `UpdateTaskData` (lines 34-38). -/
structure UpdateTaskData where
  title : Option String
  completed : Option Bool
  dueDate : Option JSDate
deriving DecidableEq

/-- The `type` field of an offline action (line 45). -/
inductive ActionType where
  | create
  | update
  | delete
deriving DecidableEq

/-- Payload (`data`) of an offline action: `CreateTaskData` for `create`
actions, `UpdateTaskData` for `update` actions (typed `any` in the source). -/
inductive ActionData where
  | createData (d : CreateTaskData)
  | updateData (d : UpdateTaskData)
deriving DecidableEq

/-- Model of interface `OfflineAction` (lines 43-49): `id` is the
`generateId()` string, `timestamp` the clock value at enqueue time. -/
structure OfflineAction where
  id : List Char
  type : ActionType
  taskId : Int
  data : Option ActionData
  timestamp : Nat
deriving DecidableEq

/-- The current user as supplied by the session collaborator
(`authService.getCurrentUser()`); its `id` is a string in the source
(the service applies `parseInt(user.id)` to it). -/
structure SessionUser where
  id : String
  username : String
deriving DecidableEq

/-- The persisted `AsyncStorage` state: the task collection and the
offline action queue. -/
structure St where
  tasks : List Task
  actions : List OfflineAction
deriving DecidableEq

/-- Errors the service surfaces to its caller:
`userNotAuthenticated` models `throw new Error('User not authenticated')`
(line 140), `taskNotFound` models `throw new Error('Task not found')`
(lines 251, 323). -/
inductive Err where
  | userNotAuthenticated
  | taskNotFound
deriving DecidableEq

/-- Model of `convertBackendTask` (lines 55-62): a spread of the backend
record plus derived fields.  `completed || false` collapses `undefined` and
`false` to `false`; `user?.id?.toString() || '1'` reduces to `toString id`
because the backend contract always supplies `user` and a decimal numeral
string is truthy. -/
def convertBackendTask (bt : BackendTask) : Task :=
  { id := bt.id
    title := bt.title
    completed := some (bt.completed.getD false)
    due_date := bt.due_date
    dueDate := bt.due_date
    user := bt.user
    userId := some (toString bt.user.id)
    isLocal := none
    needsSync := none }

/-- Model of `getStoredTasks` (lines 64-72): reads the serialized collection
and re-derives `dueDate` from `due_date` on every element (the JSON round
trip keeps every other field). -/
def getStoredTasks (tasks : List Task) : List Task :=
  tasks.map fun t => { t with dueDate := t.due_date }

/-- Model of `generateId` (lines 98-100):
`'local_' + Date.now() + '_' + Math.random().toString(36).substr(2, 9)`,
with the clock value and the random suffix as parameters; `Nat.toDigits 10`
is the decimal numeral string of the clock value. -/
def generateId (now : Nat) (rand : List Char) : List Char :=
  "local_".toList ++ (Nat.toDigits 10 now ++ '_' :: rand)

/-- Helper of `parseIntDec`: accumulates the leading run of decimal digits,
stopping at the first non-digit character. -/
def digitsAcc (acc : Nat) : List Char → Nat
  | [] => acc
  | c :: cs => if c.isDigit then digitsAcc (acc * 10 + (c.toNat - 48)) cs else acc

/-- Model of `parseInt(s, 10)` on the strings this service builds: the value
of the longest leading run of decimal digits.  Every call site passes a
string whose first character is a decimal digit (of `Date.now()` or of the
session user's numeric id string), so the `NaN` result is unreachable and
not modelled. -/
def parseIntDec (cs : List Char) : Nat := digitsAcc 0 cs

/-- Model of line 145:
`parseInt(this.generateId().replace('local_', '').substring(0, 8), 10)`.
The `replace` removes the first occurrence of `'local_'`, which is the
6-character literal the generated string starts with. -/
def localIdOf (now : Nat) (rand : List Char) : Nat :=
  parseIntDec (((generateId now rand).drop 6).take 8)

/-- Tells whether the `fetchTasks` attempt reaches its success path
(lines 104-131): token present, fetch settled, `response.ok`, body parsed,
and `status_code = 200`. -/
def fetchOk (token : Option String) (out : RespOutcome TasksResponse) : Bool :=
  match token, out with
  | some _, .resp true (some r) => r.status_code == 200
  | _, _ => false

/-- Model of `fetchTasks` (lines 102-136): on the success path it converts
and stores the server's collection and returns it; on every failure (caught
at line 132: missing token, rejected fetch, non-ok status, malformed body,
or `status_code` other than 200) it returns `getStoredTasks()` and leaves
the storage untouched. -/
def fetchTasks (st : St) (token : Option String)
    (out : RespOutcome TasksResponse) : List Task × St :=
  match token, out with
  | some _, .resp true (some r) =>
    if r.status_code == 200 then
      let convertedTasks := r.data.map convertBackendTask
      (convertedTasks, { st with tasks := convertedTasks })
    else (getStoredTasks st.tasks, st)
  | _, _ => (getStoredTasks st.tasks, st)

/-- The filter body of `getDueTasks` (lines 454-465), with `today` the
already-normalized current day (`new Date(y, m, d)` of line 452). -/
def isDueToday (today : JSDate) (task : Task) : Bool :=
  match task.completed with
  | some false =>
    if task.dueDate = none ∧ task.due_date = none then false
    else
      match task.dueDate.orElse (fun _ => task.due_date) with
      | some taskDate => decide (dayStart taskDate = today)
      | none => false
  | _ => false

/-- Model of `getDueTasks` (lines 449-466), with the current clock value
`now` a parameter. -/
def getDueTasks (st : St) (now : JSDate) : List Task :=
  (getStoredTasks st.tasks).filter (isDueToday (dayStart now))

/-- The provisional task built by `createTask` at lines 146-159. -/
def provisionalTask (user : SessionUser) (taskData : CreateTaskData)
    (now : Nat) (rand : List Char) : Task :=
  { id := Int.ofNat (localIdOf now rand)
    title := taskData.title
    completed := some false
    due_date := taskData.dueDate
    dueDate := taskData.dueDate
    user := { id := Int.ofNat (parseIntDec user.id.toList)
              username := user.username }
    userId := some user.id
    isLocal := some true
    needsSync := some true }

/-- The `create` offline action enqueued at lines 233-239, with the clock
and random suffix drawn at enqueue time as parameters. -/
def offlineCreateAction (taskData : CreateTaskData) (taskId : Int)
    (anow : Nat) (arand : List Char) : OfflineAction :=
  { id := generateId anow arand
    type := .create
    taskId := taskId
    data := some (.createData taskData)
    timestamp := anow }

/-- The `update` offline action enqueued at lines 305-311. -/
def offlineUpdateAction (updateData : UpdateTaskData) (taskId : Int)
    (anow : Nat) (arand : List Char) : OfflineAction :=
  { id := generateId anow arand
    type := .update
    taskId := taskId
    data := some (.updateData updateData)
    timestamp := anow }

/-- The `delete` offline action enqueued at lines 365-370 (no payload). -/
def offlineDeleteAction (taskId : Int) (anow : Nat) (arand : List Char) :
    OfflineAction :=
  { id := generateId anow arand
    type := .delete
    taskId := taskId
    data := none
    timestamp := anow }

/-- The catch branch of `createTask` (lines 225-243): persist the
provisional task and enqueue a `create` action carrying the original
payload (`storeOfflineAction` pushes onto the end of the queue, line 90). -/
def createOffline (st : St) (newTask : Task) (taskData : CreateTaskData)
    (anow : Nat) (arand : List Char) : Except Err Task × St :=
  (.ok newTask,
   { tasks := getStoredTasks st.tasks ++ [newTask]
     actions := st.actions ++ [offlineCreateAction taskData newTask.id anow arand] })

/-- Tells whether `createTask`'s remote attempt reaches a success return
(lines 179-220): token present, fetch settled, `response.ok`, body parsed,
`status_code` 200 or 201.  Both the "found in the refreshed list" branch and
the fallback branch then return without entering the catch. -/
def createOk (token : Option String) (out : RespOutcome CreateResponse) : Bool :=
  match token, out with
  | some _, .resp true (some r) => r.status_code == 200 || r.status_code == 201
  | _, _ => false

/-- Model of `createTask` (lines 138-244).  Parameters: `now` and `rand`
feed the `generateId()` call of line 145; `out` is the POST outcome; `fout`
the outcome of the nested `fetchTasks()` of line 188 (that call never
rejects in this model, so the inner catch of lines 200-202 is unreachable);
`fallbackNow` the clock value of line 206; `anow` and `arand` the clock and
random suffix of the enqueue path. -/
def createTask (st : St) (currentUser : Option SessionUser)
    (token : Option String) (taskData : CreateTaskData)
    (now : Nat) (rand : List Char)
    (out : RespOutcome CreateResponse) (fout : RespOutcome TasksResponse)
    (fallbackNow : Nat) (anow : Nat) (arand : List Char) :
    Except Err Task × St :=
  match currentUser with
  | none => (.error .userNotAuthenticated, st)
  | some user =>
    let newTask := provisionalTask user taskData now rand
    match token, out with
    | some tk, .resp true (some r) =>
      if r.status_code == 200 || r.status_code == 201 then
        let res := fetchTasks st (some tk) fout
        match res.1.find? fun t =>
            decide (t.title = r.data.title) && decide (t.due_date = r.data.due_date) with
        | some newlyCreatedTask => (.ok newlyCreatedTask, res.2)
        | none =>
          (.ok { id := Int.ofNat fallbackNow
                 title := r.data.title
                 completed := some false
                 due_date := r.data.due_date
                 dueDate := r.data.due_date
                 user := { id := r.data.user.id, username := user.username }
                 userId := some user.id
                 isLocal := none
                 needsSync := none }, res.2)
      else createOffline st newTask taskData anow arand
    | _, _ => createOffline st newTask taskData anow arand

/-- Replacement of the element at the first index satisfying `p`
(`tasks[taskIndex] = newTask` with `taskIndex` from `findIndex`). -/
def replaceFirst (p : Task → Bool) (newTask : Task) : List Task → List Task
  | [] => []
  | t :: ts => if p t then newTask :: ts else t :: replaceFirst p newTask ts

/-- Removal of the element at the first index satisfying `p`
(`tasks.splice(taskIndex, 1)` with `taskIndex` from `findIndex`). -/
def removeFirst (p : Task → Bool) : List Task → List Task
  | [] => []
  | t :: ts => if p t then ts else t :: removeFirst p ts

/-- The merged record built at lines 256-261:
`{...task, ...updateData, dueDate: ..., needsSync: true}`.  The spread
overwrites only the fields present in `updateData` — `due_date` is not among
them — and the explicit `dueDate` property keeps the old `Date` when the
delta carries none. -/
def applyUpdate (task : Task) (u : UpdateTaskData) : Task :=
  { task with
    title := u.title.getD task.title
    completed := u.completed.orElse fun _ => task.completed
    dueDate := (u.dueDate.orElse fun _ => task.dueDate)
    needsSync := some true }

/-- The catch branch of `updateTask` (lines 298-315): store the locally
merged record in place and enqueue an `update` action with the input delta. -/
def updateOffline (st : St) (tasks : List Task) (updatedTask : Task)
    (taskId : Int) (updateData : UpdateTaskData)
    (anow : Nat) (arand : List Char) : Except Err Task × St :=
  (.ok updatedTask,
   { tasks := replaceFirst (fun t => t.id == taskId) updatedTask tasks
     actions := st.actions ++ [offlineUpdateAction updateData taskId anow arand] })

/-- Tells whether `updateTask`'s remote attempt reaches its success return
(lines 282-293): token present, fetch settled, `response.ok`, body parsed,
`status_code = 200`. -/
def updateOk (token : Option String) (out : RespOutcome UpdateResponse) : Bool :=
  match token, out with
  | some _, .resp true (some r) => r.status_code == 200
  | _, _ => false

/-- Model of `updateTask` (lines 246-316). -/
def updateTask (st : St) (token : Option String) (taskId : Int)
    (updateData : UpdateTaskData) (out : RespOutcome UpdateResponse)
    (anow : Nat) (arand : List Char) : Except Err Task × St :=
  let tasks := getStoredTasks st.tasks
  match tasks.find? (fun t => t.id == taskId) with
  | none => (.error .taskNotFound, st)
  | some task =>
    let updatedTask := applyUpdate task updateData
    match token, out with
    | some _, .resp true (some r) =>
      if r.status_code == 200 then
        let backendTask := convertBackendTask r.data
        (.ok backendTask,
         { st with tasks := replaceFirst (fun t => t.id == taskId) backendTask tasks })
      else updateOffline st tasks updatedTask taskId updateData anow arand
    | _, _ => updateOffline st tasks updatedTask taskId updateData anow arand

/-- The catch branch of `deleteTask` (lines 358-373): remove the task
locally anyway and enqueue a `delete` action. -/
def deleteOffline (st : St) (tasks : List Task) (taskId : Int)
    (anow : Nat) (arand : List Char) : Except Err Unit × St :=
  (.ok (),
   { tasks := removeFirst (fun t => t.id == taskId) tasks
     actions := st.actions ++ [offlineDeleteAction taskId anow arand] })

/-- Tells whether `deleteTask`'s remote attempt reaches its success return
(lines 344-353). -/
def deleteOk (token : Option String) (out : RespOutcome DeleteResponse) : Bool :=
  match token, out with
  | some _, .resp true (some r) => r.status_code == 200
  | _, _ => false

/-- Model of `deleteTask` (lines 318-374). -/
def deleteTask (st : St) (token : Option String) (taskId : Int)
    (out : RespOutcome DeleteResponse) (anow : Nat) (arand : List Char) :
    Except Err Unit × St :=
  let tasks := getStoredTasks st.tasks
  match tasks.find? (fun t => t.id == taskId) with
  | none => (.error .taskNotFound, st)
  | some _ =>
    match token, out with
    | some _, .resp true (some r) =>
      if r.status_code == 200 then
        (.ok (), { st with tasks := removeFirst (fun t => t.id == taskId) tasks })
      else deleteOffline st tasks taskId anow arand
    | _, _ => deleteOffline st tasks taskId anow arand

/-- The HTTP request one queued action causes `syncOfflineChanges` to issue
(lines 388-434): method, target id, and body; `fetchReq` is the closing
`GET /tasks` of the `fetchTasks()` call at line 445. -/
inductive Request where
  | createReq (body : Option ActionData)
  | updateReq (taskId : Int) (body : Option ActionData)
  | deleteReq (taskId : Int)
  | fetchReq
deriving DecidableEq

/-- The request issued for one queued action (the `switch` of line 388). -/
def toRequest (a : OfflineAction) : Request :=
  match a.type with
  | .create => .createReq a.data
  | .update => .updateReq a.taskId a.data
  | .delete => .deleteReq a.taskId

/-- The `for (const action of actions)` loop of lines 384-438: one request
per action, in list order.  Each iteration only inspects its response to
decide whether to parse and log it, and any rejection is caught at line 435
and logged, so the outcome `outs i` of the i-th call affects neither the
state nor the set of requests issued. -/
def drainRequests (outs : Nat → RespOutcome Unit) (i : Nat) :
    List OfflineAction → List Request
  | [] => []
  | a :: rest => toRequest a :: drainRequests outs (i + 1) rest

/-- Model of `syncOfflineChanges` (lines 376-447): no-op without a token or
with an empty queue; otherwise it drains the queue in order, clears it
unconditionally (line 441), and re-fetches from the backend (line 445,
re-reading the same token).  Returns the new state and the requests issued. -/
def syncOfflineChanges (st : St) (token : Option String)
    (outs : Nat → RespOutcome Unit) (fout : RespOutcome TasksResponse) :
    St × List Request :=
  match token with
  | none => (st, [])
  | some tk =>
    if st.actions.isEmpty then (st, [])
    else
      let reqs := drainRequests outs 0 st.actions
      let cleared : St := { st with actions := [] }
      let res := fetchTasks cleared (some tk) fout
      (res.2, reqs ++ [.fetchReq])

/-- One invocation of a public `TaskService` operation, bundling the
environment it observes (session, clock, RNG, remote outcomes). -/
inductive Op where
  | fetch (token : Option String) (out : RespOutcome TasksResponse)
  | create (currentUser : Option SessionUser) (token : Option String)
      (taskData : CreateTaskData) (now : Nat) (rand : List Char)
      (out : RespOutcome CreateResponse) (fout : RespOutcome TasksResponse)
      (fallbackNow anow : Nat) (arand : List Char)
  | update (token : Option String) (taskId : Int) (updateData : UpdateTaskData)
      (out : RespOutcome UpdateResponse) (anow : Nat) (arand : List Char)
  | delete (token : Option String) (taskId : Int)
      (out : RespOutcome DeleteResponse) (anow : Nat) (arand : List Char)
  | sync (token : Option String) (outs : Nat → RespOutcome Unit)
      (fout : RespOutcome TasksResponse)

/-- The storage state after one operation. -/
def applyOp (st : St) : Op → St
  | .fetch token out => (fetchTasks st token out).2
  | .create currentUser token d now rand out fout fallbackNow anow arand =>
      (createTask st currentUser token d now rand out fout fallbackNow anow arand).2
  | .update token taskId u out anow arand =>
      (updateTask st token taskId u out anow arand).2
  | .delete token taskId out anow arand =>
      (deleteTask st token taskId out anow arand).2
  | .sync token outs fout => (syncOfflineChanges st token outs fout).1

/-- The storage state after a sequence of operations. -/
def run (st : St) (ops : List Op) : St := ops.foldl applyOp st

/-- A task's offline flags are backed by the queue: `isLocal = true` by a
pending `create` action for its id, and `needsSync = true` on a non-local
task by a pending `update` action for its id. -/
def TaskBacked (actions : List OfflineAction) (t : Task) : Prop :=
  (t.isLocal = some true →
     ∃ a ∈ actions, a.type = ActionType.create ∧ a.taskId = t.id) ∧
  (t.needsSync = some true ∧ t.isLocal ≠ some true →
     ∃ a ∈ actions, a.type = ActionType.update ∧ a.taskId = t.id)

/-- The queue-backing invariant over the whole stored collection. -/
def Inv (st : St) : Prop := ∀ t ∈ st.tasks, TaskBacked st.actions t

instance (actions : List OfflineAction) (t : Task) :
    Decidable (TaskBacked actions t) := by
  unfold TaskBacked; infer_instance

instance (st : St) : Decidable (Inv st) := by
  unfold Inv; infer_instance

/-- Sufficient condition for an operation to preserve `Inv`: anything except
a drain that runs with a session token whose closing `fetchTasks` fails. -/
def SyncSafe : Op → Prop
  | .sync token _ fout => token = none ∨ fetchOk token fout = true
  | _ => True

instance (op : Op) : Decidable (SyncSafe op) := by
  cases op <;> simp only [SyncSafe] <;> infer_instance

/-! Helper lemmas. -/

theorem fetchTasks_actions (st : St) (token : Option String)
    (out : RespOutcome TasksResponse) :
    ((fetchTasks st token out).2).actions = st.actions := by
  cases token with
  | none => rfl
  | some tk =>
    cases out with
    | netError => rfl
    | resp ok body =>
      cases ok with
      | false => rfl
      | true =>
        cases body with
        | none => rfl
        | some r =>
          simp only [fetchTasks]
          split <;> rfl

theorem fetchTasks_fail_eq (st : St) (token : Option String)
    (out : RespOutcome TasksResponse) (h : fetchOk token out = false) :
    fetchTasks st token out = (getStoredTasks st.tasks, st) := by
  cases token with
  | none => rfl
  | some tk =>
    cases out with
    | netError => rfl
    | resp ok body =>
      cases ok with
      | false => rfl
      | true =>
        cases body with
        | none => rfl
        | some r =>
          simp only [fetchOk] at h
          simp [fetchTasks, h]

theorem fetchTasks_ok_tasks (st : St) (token : Option String)
    (out : RespOutcome TasksResponse) (h : fetchOk token out = true) :
    ∃ data : List BackendTask, ((fetchTasks st token out).2).tasks = data.map convertBackendTask := by
  cases token with
  | none => exact absurd h (by simp [fetchOk])
  | some tk =>
    cases out with
    | netError => exact absurd h (by simp [fetchOk])
    | resp ok body =>
      cases ok with
      | false => exact absurd h (by simp [fetchOk])
      | true =>
        cases body with
        | none => exact absurd h (by simp [fetchOk])
        | some r =>
          simp only [fetchOk] at h
          refine ⟨r.data, ?_⟩
          simp [fetchTasks, h]

theorem backed_append (actions more : List OfflineAction) (t : Task)
    (h : TaskBacked actions t) : TaskBacked (actions ++ more) t := by
  obtain ⟨h1, h2⟩ := h
  refine ⟨fun hl => ?_, fun hn => ?_⟩
  · obtain ⟨a, ha, hp⟩ := h1 hl
    exact ⟨a, List.mem_append_left _ ha, hp⟩
  · obtain ⟨a, ha, hp⟩ := h2 hn
    exact ⟨a, List.mem_append_left _ ha, hp⟩

theorem backed_convert (actions : List OfflineAction) (bt : BackendTask) :
    TaskBacked actions (convertBackendTask bt) := by
  constructor
  · intro h
    simp [convertBackendTask] at h
  · intro h
    simp [convertBackendTask] at h

theorem backed_set_dueDate (actions : List OfflineAction) (t : Task)
    (d : Option JSDate) :
    TaskBacked actions { t with dueDate := d } ↔ TaskBacked actions t :=
  Iff.rfl

theorem inv_getStored (st : St) (h : Inv st) :
    ∀ t ∈ getStoredTasks st.tasks, TaskBacked st.actions t := by
  intro t ht
  simp only [getStoredTasks, List.mem_map] at ht
  obtain ⟨t0, ht0, rfl⟩ := ht
  exact (backed_set_dueDate _ _ _).mpr (h t0 ht0)

theorem mem_replaceFirst (p : Task → Bool) (newTask t : Task) :
    ∀ l : List Task, t ∈ replaceFirst p newTask l → t = newTask ∨ t ∈ l := by
  intro l
  induction l with
  | nil => intro h; simp [replaceFirst] at h
  | cons x xs ih =>
    simp only [replaceFirst]
    split
    · intro h
      rcases List.mem_cons.mp h with h | h
      · exact Or.inl h
      · exact Or.inr (List.mem_cons_of_mem _ h)
    · intro h
      rcases List.mem_cons.mp h with h | h
      · exact Or.inr (h ▸ List.mem_cons_self _ _)
      · rcases ih h with h | h
        · exact Or.inl h
        · exact Or.inr (List.mem_cons_of_mem _ h)

theorem mem_removeFirst (p : Task → Bool) (t : Task) :
    ∀ l : List Task, t ∈ removeFirst p l → t ∈ l := by
  intro l
  induction l with
  | nil => intro h; simp [removeFirst] at h
  | cons x xs ih =>
    simp only [removeFirst]
    split
    · exact fun h => List.mem_cons_of_mem _ h
    · intro h
      rcases List.mem_cons.mp h with h | h
      · exact h ▸ List.mem_cons_self _ _
      · exact List.mem_cons_of_mem _ (ih h)

theorem removeFirst_length (p : Task → Bool) :
    ∀ l : List Task, (∃ t ∈ l, p t = true) →
      (removeFirst p l).length + 1 = l.length := by
  intro l
  induction l with
  | nil => rintro ⟨t, ht, -⟩; simp at ht
  | cons x xs ih =>
    rintro ⟨t, ht, hp⟩
    simp only [removeFirst]
    by_cases hx : p x = true
    · simp [hx]
    · rcases List.mem_cons.mp ht with rfl | ht
      · exact absurd hp hx
      · simp only [if_neg hx, List.length_cons]
        rw [ih ⟨t, ht, hp⟩]

theorem drainRequests_eq (outs : Nat → RespOutcome Unit) :
    ∀ (l : List OfflineAction) (i : Nat),
      drainRequests outs i l = l.map toRequest := by
  intro l
  induction l with
  | nil => intro i; rfl
  | cons a rest ih => intro i; simp [drainRequests, ih]

theorem inv_fetch_of_ok (st : St) (token : Option String)
    (out : RespOutcome TasksResponse) (hok : fetchOk token out = true) :
    Inv (fetchTasks st token out).2 := by
  obtain ⟨data, hdata⟩ := fetchTasks_ok_tasks st token out hok
  intro t ht
  rw [fetchTasks_actions]
  rw [hdata] at ht
  obtain ⟨bt, -, rfl⟩ := List.mem_map.mp ht
  exact backed_convert _ _

theorem inv_fetchTasks (st : St) (token : Option String)
    (out : RespOutcome TasksResponse) (h : Inv st) :
    Inv (fetchTasks st token out).2 := by
  cases hok : fetchOk token out with
  | false => rw [fetchTasks_fail_eq st token out hok]; exact h
  | true => exact inv_fetch_of_ok st token out hok

theorem inv_createOffline (st : St) (user : SessionUser)
    (taskData : CreateTaskData) (now : Nat) (rand : List Char)
    (anow : Nat) (arand : List Char) (h : Inv st) :
    Inv (createOffline st (provisionalTask user taskData now rand)
          taskData anow arand).2 := by
  intro t ht
  simp only [createOffline] at ht ⊢
  rcases List.mem_append.mp ht with ht | ht
  · exact backed_append _ _ _ (inv_getStored st h t ht)
  · simp only [List.mem_singleton] at ht
    subst ht
    constructor
    · intro _
      exact ⟨offlineCreateAction taskData
               (provisionalTask user taskData now rand).id anow arand,
             List.mem_append_right _ (List.mem_singleton_self _), rfl, rfl⟩
    · rintro ⟨-, hne⟩
      exact absurd rfl hne

theorem inv_updateOffline (st : St) (taskId : Int) (u : UpdateTaskData)
    (task : Task) (anow : Nat) (arand : List Char)
    (hfind : (getStoredTasks st.tasks).find? (fun t => t.id == taskId) = some task)
    (h : Inv st) :
    Inv (updateOffline st (getStoredTasks st.tasks) (applyUpdate task u)
          taskId u anow arand).2 := by
  have hmem : task ∈ getStoredTasks st.tasks := List.mem_of_find?_eq_some hfind
  have hid : task.id = taskId := by
    have hp := List.find?_some hfind
    simpa using hp
  intro t ht
  simp only [updateOffline] at ht ⊢
  rcases mem_replaceFirst _ _ _ _ ht with rfl | ht
  · constructor
    · intro hl
      have hl' : task.isLocal = some true := hl
      obtain ⟨a, ha, hty, hid'⟩ := (inv_getStored st h task hmem).1 hl'
      exact ⟨a, List.mem_append_left _ ha, hty, hid'⟩
    · rintro ⟨-, -⟩
      exact ⟨offlineUpdateAction u taskId anow arand,
             List.mem_append_right _ (List.mem_singleton_self _), rfl, hid.symm⟩
  · exact backed_append _ _ _ (inv_getStored st h t ht)

theorem inv_replace_convert (st : St) (taskId : Int) (bt : BackendTask)
    (h : Inv st) :
    Inv { st with tasks := replaceFirst (fun t => t.id == taskId)
                    (convertBackendTask bt) (getStoredTasks st.tasks) } := by
  intro t ht
  rcases mem_replaceFirst _ _ _ _ ht with rfl | ht
  · exact backed_convert _ _
  · exact inv_getStored st h t ht

theorem inv_remove (st : St) (taskId : Int) (h : Inv st) :
    Inv { st with tasks := removeFirst (fun t => t.id == taskId)
                    (getStoredTasks st.tasks) } := by
  intro t ht
  exact inv_getStored st h t (mem_removeFirst _ _ _ ht)

theorem inv_deleteOffline (st : St) (taskId : Int) (anow : Nat)
    (arand : List Char) (h : Inv st) :
    Inv (deleteOffline st (getStoredTasks st.tasks) taskId anow arand).2 := by
  intro t ht
  simp only [deleteOffline] at ht ⊢
  exact backed_append _ _ _ (inv_getStored st h t (mem_removeFirst _ _ _ ht))

theorem inv_applyOp (st : St) (op : Op) (hop : SyncSafe op) (h : Inv st) :
    Inv (applyOp st op) := by
  cases op with
  | fetch token out => exact inv_fetchTasks st token out h
  | create currentUser token d now rand out fout fallbackNow anow arand =>
    cases currentUser with
    | none => exact h
    | some user =>
      show Inv (createTask st (some user) token d now rand out fout
                 fallbackNow anow arand).2
      cases token with
      | none => exact inv_createOffline st user d now rand anow arand h
      | some tk =>
        cases out with
        | netError => exact inv_createOffline st user d now rand anow arand h
        | resp ok body =>
          cases ok with
          | false => exact inv_createOffline st user d now rand anow arand h
          | true =>
            cases body with
            | none => exact inv_createOffline st user d now rand anow arand h
            | some r =>
              simp only [createTask]
              split
              · split
                · exact inv_fetchTasks st (some tk) fout h
                · exact inv_fetchTasks st (some tk) fout h
              · exact inv_createOffline st user d now rand anow arand h
  | update token taskId u out anow arand =>
    show Inv (updateTask st token taskId u out anow arand).2
    cases hfind : (getStoredTasks st.tasks).find? (fun t => t.id == taskId) with
    | none =>
      simp only [updateTask, hfind]
      exact h
    | some task =>
      cases token with
      | none =>
        simp only [updateTask, hfind]
        exact inv_updateOffline st taskId u task anow arand hfind h
      | some tk =>
        cases out with
        | netError =>
          simp only [updateTask, hfind]
          exact inv_updateOffline st taskId u task anow arand hfind h
        | resp ok body =>
          cases ok with
          | false =>
            simp only [updateTask, hfind]
            exact inv_updateOffline st taskId u task anow arand hfind h
          | true =>
            cases body with
            | none =>
              simp only [updateTask, hfind]
              exact inv_updateOffline st taskId u task anow arand hfind h
            | some r =>
              simp only [updateTask, hfind]
              split
              · exact inv_replace_convert st taskId r.data h
              · exact inv_updateOffline st taskId u task anow arand hfind h
  | delete token taskId out anow arand =>
    show Inv (deleteTask st token taskId out anow arand).2
    cases hfind : (getStoredTasks st.tasks).find? (fun t => t.id == taskId) with
    | none =>
      simp only [deleteTask, hfind]
      exact h
    | some task =>
      cases token with
      | none =>
        simp only [deleteTask, hfind]
        exact inv_deleteOffline st taskId anow arand h
      | some tk =>
        cases out with
        | netError =>
          simp only [deleteTask, hfind]
          exact inv_deleteOffline st taskId anow arand h
        | resp ok body =>
          cases ok with
          | false =>
            simp only [deleteTask, hfind]
            exact inv_deleteOffline st taskId anow arand h
          | true =>
            cases body with
            | none =>
              simp only [deleteTask, hfind]
              exact inv_deleteOffline st taskId anow arand h
            | some r =>
              simp only [deleteTask, hfind]
              split
              · exact inv_remove st taskId h
              · exact inv_deleteOffline st taskId anow arand h
  | sync token outs fout =>
    cases token with
    | none => exact h
    | some tk =>
      simp only [SyncSafe] at hop
      show Inv (syncOfflineChanges st (some tk) outs fout).1
      simp only [syncOfflineChanges]
      by_cases he : st.actions.isEmpty = true
      · simp only [if_pos he]
        exact h
      · simp only [if_neg he]
        rcases hop with hnone | hok
        · exact absurd hnone (by simp)
        · exact inv_fetch_of_ok _ _ _ hok

theorem inv_run (st : St) (ops : List Op)
    (hops : ∀ op ∈ ops, SyncSafe op) (h : Inv st) : Inv (run st ops) := by
  induction ops generalizing st with
  | nil => exact h
  | cons op rest ih =>
    exact ih (applyOp st op)
      (fun o ho => hops o (List.mem_cons_of_mem _ ho))
      (inv_applyOp st op (hops op (List.mem_cons_self _ _)) h)

theorem isEmpty_false_of_ne_nil {l : List OfflineAction} (h : l ≠ []) :
    l.isEmpty = false := by
  cases hA : l with
  | nil => exact absurd hA h
  | cons a rest => rfl

theorem drop6_generateId (now : Nat) (rand : List Char) :
    (generateId now rand).drop 6 = Nat.toDigits 10 now ++ '_' :: rand := by
  have h6 : ("local_".toList).length = 6 := rfl
  show ("local_".toList ++ (Nat.toDigits 10 now ++ '_' :: rand)).drop 6 = _
  rw [← h6, List.drop_left]

theorem localIdOf_eq (now : Nat) (rand : List Char)
    (h : 8 ≤ (Nat.toDigits 10 now).length) :
    localIdOf now rand = parseIntDec ((Nat.toDigits 10 now).take 8) := by
  simp only [localIdOf, drop6_generateId]
  rw [List.take_append_of_le_length h]

theorem isDueToday_iff (today : JSDate) (t : Task) :
    isDueToday today t = true ↔
      t.completed = some false ∧
      ∃ d, (t.dueDate.orElse fun _ => t.due_date) = some d ∧ dayStart d = today := by
  unfold isDueToday
  cases hc : t.completed with
  | none => simp
  | some b =>
    cases b with
    | true => simp
    | false =>
      simp only [true_and]
      by_cases hnd : t.dueDate = none ∧ t.due_date = none
      · obtain ⟨h1, h2⟩ := hnd
        simp [h1, h2, Option.orElse]
      · simp only [if_neg hnd]
        cases ho : (t.dueDate.orElse fun _ => t.due_date) with
        | none => simp [ho]
        | some d => simp [ho]

/-! Claim theorems and witnesses. -/

/-- C1: given a session token and a non-empty queue at entry,
`syncOfflineChanges` completes with the Offline Action queue empty, for
every queue content, every pattern of per-action call outcomes `outs`, and
every outcome `fout` of the closing refresh; per-action failures are
swallowed inside the loop (the result type carries no error), so they
neither prevent the clear nor reach the caller. -/
theorem syncOfflineChanges_clears_queue (st : St) (tk : String)
    (outs : Nat → RespOutcome Unit) (fout : RespOutcome TasksResponse)
    (h : st.actions ≠ []) :
    ((syncOfflineChanges st (some tk) outs fout).1).actions = [] := by
  have he := isEmpty_false_of_ne_nil h
  simp [syncOfflineChanges, he, fetchTasks_actions]

/-- Concrete instance of `syncOfflineChanges_clears_queue`: a one-element
queue, a token, and all remote calls failing. -/
theorem syncOfflineChanges_clears_queue_witness :
    ({ tasks := [], actions := [⟨['a'], ActionType.create, 1, none, 0⟩] } : St).actions ≠ [] ∧
    ((syncOfflineChanges
        { tasks := [], actions := [⟨['a'], ActionType.create, 1, none, 0⟩] }
        (some "tk") (fun _ => RespOutcome.netError) RespOutcome.netError).1).actions = [] :=
  ⟨by decide, syncOfflineChanges_clears_queue _ _ _ _ (by decide)⟩

/-- C2: on every failing remote outcome (absent auth token, network error,
non-success status, or malformed response body), `fetchTasks` returns
exactly the stored task collection as `getStoredTasks` reads it, leaves the
storage state unchanged, and — being a total function into
`List Task × St` — never throws. -/
theorem fetchTasks_failure_returns_stored (st : St) (token : Option String)
    (out : RespOutcome TasksResponse) (h : fetchOk token out = false) :
    fetchTasks st token out = (getStoredTasks st.tasks, st) :=
  fetchTasks_fail_eq st token out h

/-- Concrete instance of `fetchTasks_failure_returns_stored`: a network
error with a token present. -/
theorem fetchTasks_failure_returns_stored_witness :
    fetchOk (some "tk") RespOutcome.netError = false ∧
    fetchTasks { tasks := [], actions := [] } (some "tk") RespOutcome.netError
      = (getStoredTasks [], { tasks := [], actions := [] }) :=
  ⟨by decide, fetchTasks_failure_returns_stored _ _ _ (by decide)⟩

/-- C3 counterexample: starting from the empty state (which satisfies the
backing invariant), an offline `createTask` followed by a
`syncOfflineChanges` whose closing `fetchTasks` fails leaves a task flagged
`isLocal = true` in the store while the action queue is empty — so the
invariant does not hold in every reachable state: the drain clears the
queue unconditionally (line 441) but the stale flags survive when the final
refresh (line 445) cannot replace the collection. -/
theorem queue_backing_invariant_fails_after_failed_sync_fetch :
    Inv { tasks := [], actions := [] } ∧
    ¬ Inv (run { tasks := [], actions := [] }
        [Op.create (some ⟨"1", "alice"⟩) none ⟨"pay rent", none⟩ 12345678 []
           RespOutcome.netError RespOutcome.netError 0 99 [],
         Op.sync (some "tk") (fun _ => RespOutcome.netError) RespOutcome.netError]) := by
  constructor
  · decide
  · decide

/-- C3 amended: the queue-backing invariant — every stored task with
`isLocal = true` has a pending `create` action for its id, and every stored
task with `needsSync = true` and `isLocal ≠ true` has a pending `update`
action for its id — holds in every state reachable from an invariant state
by `createTask`, `updateTask`, `deleteTask`, `fetchTasks`, and by every
`syncOfflineChanges` that either runs without a session token or whose
closing `fetchTasks` succeeds.  The counterexample above shows the
restriction on the drain is necessary. -/
theorem queue_backing_invariant_of_syncSafe (st : St) (ops : List Op)
    (hops : ∀ op ∈ ops, SyncSafe op) (h : Inv st) : Inv (run st ops) :=
  inv_run st ops hops h

/-- Concrete instance of `queue_backing_invariant_of_syncSafe`: an offline
create followed by a drain whose closing fetch succeeds. -/
theorem queue_backing_invariant_of_syncSafe_witness :
    (∀ op ∈ [Op.create (some ⟨"1", "alice"⟩) none ⟨"pay rent", none⟩ 12345678 []
               RespOutcome.netError RespOutcome.netError 0 99 [],
             Op.sync (some "tk") (fun _ => RespOutcome.netError)
               (RespOutcome.resp true (some ⟨200, "", "", []⟩))], SyncSafe op) ∧
    Inv { tasks := [], actions := [] } ∧
    Inv (run { tasks := [], actions := [] }
        [Op.create (some ⟨"1", "alice"⟩) none ⟨"pay rent", none⟩ 12345678 []
           RespOutcome.netError RespOutcome.netError 0 99 [],
         Op.sync (some "tk") (fun _ => RespOutcome.netError)
           (RespOutcome.resp true (some ⟨200, "", "", []⟩))]) :=
  ⟨by decide, by decide,
   queue_backing_invariant_of_syncSafe _ _ (by decide) (by decide)⟩

/-- C4: when `createTask` runs with a session user and its remote create
attempt fails for any reason (absent token, rejected fetch, non-ok
response, malformed body, or a status code other than 200/201), it returns
the provisional task — flagged `isLocal = true` and `needsSync = true` —
appends that task to the stored collection, and appends exactly one
`create` offline action carrying the original input payload. -/
theorem createTask_offline_durability (st : St) (user : SessionUser)
    (token : Option String) (d : CreateTaskData) (now : Nat)
    (rand : List Char) (out : RespOutcome CreateResponse)
    (fout : RespOutcome TasksResponse) (fallbackNow anow : Nat)
    (arand : List Char) (h : createOk token out = false) :
    createTask st (some user) token d now rand out fout fallbackNow anow arand
      = (.ok (provisionalTask user d now rand),
         { tasks := getStoredTasks st.tasks ++ [provisionalTask user d now rand]
           actions := st.actions ++
             [offlineCreateAction d (provisionalTask user d now rand).id anow arand] }) ∧
    (provisionalTask user d now rand).isLocal = some true ∧
    (provisionalTask user d now rand).needsSync = some true ∧
    provisionalTask user d now rand
      ∈ getStoredTasks st.tasks ++ [provisionalTask user d now rand] := by
  refine ⟨?_, rfl, rfl, List.mem_append_right _ (List.mem_singleton_self _)⟩
  cases token with
  | none => rfl
  | some tk =>
    cases out with
    | netError => rfl
    | resp ok body =>
      cases ok with
      | false => rfl
      | true =>
        cases body with
        | none => rfl
        | some r =>
          simp only [createOk] at h
          simp [createTask, h, createOffline]

/-- Concrete instance of `createTask_offline_durability`: a create of
"Pay rent" with the remote call rejecting. -/
theorem createTask_offline_durability_witness :
    createOk (some "tk") (RespOutcome.netError : RespOutcome CreateResponse) = false ∧
    (createTask { tasks := [], actions := [] } (some ⟨"1", "alice"⟩) (some "tk")
        ⟨"Pay rent", some ⟨2024, 0, 15, 0⟩⟩ 12345678 ['q'] RespOutcome.netError
        RespOutcome.netError 0 99 ['z']
      = (.ok (provisionalTask ⟨"1", "alice"⟩ ⟨"Pay rent", some ⟨2024, 0, 15, 0⟩⟩ 12345678 ['q']),
         { tasks := getStoredTasks [] ++
             [provisionalTask ⟨"1", "alice"⟩ ⟨"Pay rent", some ⟨2024, 0, 15, 0⟩⟩ 12345678 ['q']]
           actions := [] ++
             [offlineCreateAction ⟨"Pay rent", some ⟨2024, 0, 15, 0⟩⟩
               (provisionalTask ⟨"1", "alice"⟩ ⟨"Pay rent", some ⟨2024, 0, 15, 0⟩⟩ 12345678 ['q']).id
               99 ['z']] }) ∧
     (provisionalTask ⟨"1", "alice"⟩ ⟨"Pay rent", some ⟨2024, 0, 15, 0⟩⟩ 12345678 ['q']).isLocal
       = some true ∧
     (provisionalTask ⟨"1", "alice"⟩ ⟨"Pay rent", some ⟨2024, 0, 15, 0⟩⟩ 12345678 ['q']).needsSync
       = some true ∧
     provisionalTask ⟨"1", "alice"⟩ ⟨"Pay rent", some ⟨2024, 0, 15, 0⟩⟩ 12345678 ['q']
       ∈ getStoredTasks [] ++
           [provisionalTask ⟨"1", "alice"⟩ ⟨"Pay rent", some ⟨2024, 0, 15, 0⟩⟩ 12345678 ['q']]) :=
  ⟨by decide, createTask_offline_durability _ _ _ _ _ _ _ _ _ _ _ (by decide)⟩

/-- C5: with a session token and a non-empty queue, the requests
`syncOfflineChanges` issues are exactly the queued actions' requests in
strict insertion (FIFO) order, followed by the closing refresh request; in
particular, for a queue `[A1 (create), A2 (update)]` the create request is
issued strictly before the update request. -/
theorem syncOfflineChanges_requests_fifo (st : St) (tk : String)
    (outs : Nat → RespOutcome Unit) (fout : RespOutcome TasksResponse)
    (h : st.actions ≠ []) :
    (syncOfflineChanges st (some tk) outs fout).2
      = st.actions.map toRequest ++ [Request.fetchReq] := by
  have he := isEmpty_false_of_ne_nil h
  simp [syncOfflineChanges, he, drainRequests_eq]

/-- Concrete instance of `syncOfflineChanges_requests_fifo`: a queue holding
a `create` for task 5 then an `update` of task 5, drained in that order. -/
theorem syncOfflineChanges_requests_fifo_witness :
    ({ tasks := []
       actions := [⟨['a'], ActionType.create, 5, some (.createData ⟨"x", none⟩), 0⟩,
                   ⟨['b'], ActionType.update, 5, some (.updateData ⟨none, some true, none⟩), 1⟩] } : St).actions
      ≠ [] ∧
    (syncOfflineChanges
        { tasks := []
          actions := [⟨['a'], ActionType.create, 5, some (.createData ⟨"x", none⟩), 0⟩,
                      ⟨['b'], ActionType.update, 5, some (.updateData ⟨none, some true, none⟩), 1⟩] }
        (some "tk") (fun _ => RespOutcome.netError) RespOutcome.netError).2
      = [⟨['a'], ActionType.create, 5, some (.createData ⟨"x", none⟩), 0⟩,
         ⟨['b'], ActionType.update, 5, some (.updateData ⟨none, some true, none⟩), 1⟩].map toRequest
          ++ [Request.fetchReq] :=
  ⟨by decide, syncOfflineChanges_requests_fifo _ _ _ _ (by decide)⟩

/-- C6: when the target id is present in the stored collection and the
remote delete attempt fails for any reason, `deleteTask` still removes the
(first) task with that id from the Local Task Store and appends exactly one
`delete` offline action for that id; the length equation shows exactly one
element was removed. -/
theorem deleteTask_offline_removes_and_enqueues (st : St)
    (token : Option String) (taskId : Int) (out : RespOutcome DeleteResponse)
    (anow : Nat) (arand : List Char)
    (hmem : ∃ t ∈ getStoredTasks st.tasks, t.id = taskId)
    (h : deleteOk token out = false) :
    deleteTask st token taskId out anow arand
      = (.ok (),
         { tasks := removeFirst (fun t => t.id == taskId) (getStoredTasks st.tasks)
           actions := st.actions ++ [offlineDeleteAction taskId anow arand] }) ∧
    (removeFirst (fun t => t.id == taskId) (getStoredTasks st.tasks)).length + 1
      = (getStoredTasks st.tasks).length := by
  have hmem' : ∃ t ∈ getStoredTasks st.tasks, (t.id == taskId) = true := by
    obtain ⟨t, ht, hid⟩ := hmem
    exact ⟨t, ht, by simp [hid]⟩
  have hsome : ((getStoredTasks st.tasks).find? (fun t => t.id == taskId)).isSome := by
    rw [List.find?_isSome]
    exact hmem'
  obtain ⟨task, hfind⟩ := Option.isSome_iff_exists.mp hsome
  refine ⟨?_, removeFirst_length _ _ hmem'⟩
  cases token with
  | none => simp [deleteTask, hfind, deleteOffline]
  | some tk =>
    cases out with
    | netError => simp [deleteTask, hfind, deleteOffline]
    | resp ok body =>
      cases ok with
      | false => simp [deleteTask, hfind, deleteOffline]
      | true =>
        cases body with
        | none => simp [deleteTask, hfind, deleteOffline]
        | some r =>
          simp only [deleteOk] at h
          simp [deleteTask, hfind, h, deleteOffline]

/-- Concrete instance of `deleteTask_offline_removes_and_enqueues`: task 7
stored, remote delete rejects. -/
theorem deleteTask_offline_removes_and_enqueues_witness :
    (∃ t ∈ getStoredTasks [⟨7, "t", some false, none, none, ⟨1, "u"⟩, none, none, none⟩],
       t.id = 7) ∧
    deleteOk (some "tk") (RespOutcome.netError : RespOutcome DeleteResponse) = false ∧
    (deleteTask { tasks := [⟨7, "t", some false, none, none, ⟨1, "u"⟩, none, none, none⟩],
                  actions := [] } (some "tk") 7 RespOutcome.netError 99 ['z']
      = (.ok (),
         { tasks := removeFirst (fun t => t.id == 7)
             (getStoredTasks [⟨7, "t", some false, none, none, ⟨1, "u"⟩, none, none, none⟩])
           actions := [] ++ [offlineDeleteAction 7 99 ['z']] }) ∧
     (removeFirst (fun t => t.id == 7)
        (getStoredTasks [⟨7, "t", some false, none, none, ⟨1, "u"⟩, none, none, none⟩])).length + 1
       = (getStoredTasks [⟨7, "t", some false, none, none, ⟨1, "u"⟩, none, none, none⟩]).length) :=
  ⟨by decide, by decide,
   deleteTask_offline_removes_and_enqueues _ _ _ _ _ _ (by decide) (by decide)⟩

/-- C7: for a task id absent from the Local Task Store, `updateTask` fails
with the TaskNotFound error, appends no offline action, and leaves the
state unchanged — and `deleteTask` on the same absent id does likewise
(both check presence before any write or remote call). -/
theorem update_delete_absent_id_taskNotFound (st : St) (taskId : Int)
    (u : UpdateTaskData) (token token' : Option String)
    (uout : RespOutcome UpdateResponse) (dout : RespOutcome DeleteResponse)
    (anow anow' : Nat) (arand arand' : List Char)
    (habs : ∀ t ∈ getStoredTasks st.tasks, t.id ≠ taskId) :
    updateTask st token taskId u uout anow arand = (.error .taskNotFound, st) ∧
    deleteTask st token' taskId dout anow' arand' = (.error .taskNotFound, st) := by
  have hfind : (getStoredTasks st.tasks).find? (fun t => t.id == taskId) = none := by
    rw [List.find?_eq_none]
    intro t ht
    simpa using habs t ht
  constructor
  · simp [updateTask, hfind]
  · simp [deleteTask, hfind]

/-- Concrete instance of `update_delete_absent_id_taskNotFound`: update and
delete of id 5 on a store holding only id 7. -/
theorem update_delete_absent_id_taskNotFound_witness :
    (∀ t ∈ getStoredTasks [⟨7, "t", some false, none, none, ⟨1, "u"⟩, none, none, none⟩],
       t.id ≠ (5 : Int)) ∧
    (updateTask { tasks := [⟨7, "t", some false, none, none, ⟨1, "u"⟩, none, none, none⟩],
                  actions := [] } (some "tk") 5 ⟨none, some true, none⟩
        RespOutcome.netError 99 ['z']
      = (.error .taskNotFound,
         { tasks := [⟨7, "t", some false, none, none, ⟨1, "u"⟩, none, none, none⟩],
           actions := [] }) ∧
     deleteTask { tasks := [⟨7, "t", some false, none, none, ⟨1, "u"⟩, none, none, none⟩],
                  actions := [] } none 5 RespOutcome.netError 98 ['y']
      = (.error .taskNotFound,
         { tasks := [⟨7, "t", some false, none, none, ⟨1, "u"⟩, none, none, none⟩],
           actions := [] })) :=
  ⟨by decide,
   update_delete_absent_id_taskNotFound _ _ _ _ _ _ _ _ _ _ _ (by decide)⟩

/-- C8: `createTask` called without a session identity fails with the
AuthenticationRequired error before touching the network, the store, or the
queue: the state is returned unchanged and no offline fallback occurs, for
every payload, token, clock value, and remote outcome. -/
theorem createTask_unauthenticated_error (st : St) (token : Option String)
    (d : CreateTaskData) (now : Nat) (rand : List Char)
    (out : RespOutcome CreateResponse) (fout : RespOutcome TasksResponse)
    (fallbackNow anow : Nat) (arand : List Char) :
    createTask st none token d now rand out fout fallbackNow anow arand
      = (.error .userNotAuthenticated, st) :=
  rfl

/-- C9: membership in `getDueTasks` is exactly: the task is in the stored
collection (as read by `getStoredTasks`), its `completed` field is exactly
`false`, it has a due date, and that due date normalized to midnight equals
the current date normalized to midnight — so a task due on any other
calendar day (yesterday, tomorrow) is never returned. -/
theorem getDueTasks_mem_iff (st : St) (now : JSDate) (t : Task) :
    t ∈ getDueTasks st now ↔
      t ∈ getStoredTasks st.tasks ∧ t.completed = some false ∧
      ∃ d, (t.dueDate.orElse fun _ => t.due_date) = some d ∧
        dayStart d = dayStart now := by
  rw [getDueTasks, List.mem_filter, isDueToday_iff]

/-- C10 counterexample: the clock values 1760000000000 and 1760000100000 lie
100000 ms (100 seconds) apart — far inside a single 28-hour window — yet
produce different provisional local ids (17600000 and 17600001): the first
8 digits of a 13-digit millisecond timestamp change every 10^5 ms, so the
collision window is about 100 seconds, not 28 hours. -/
theorem localId_collision_window_not_28h :
    localIdOf 1760000000000 ['a'] ≠ localIdOf 1760000100000 ['a'] ∧
    1760000100000 - 1760000000000 < 28 * 60 * 60 * 1000 := by
  constructor
  · decide
  · decide

/-- C10 amended: the provisional local id is exactly the integer parsed
from the first 8 characters of the decimal millisecond timestamp; hence any
two `createTask` invocations whose timestamps agree in their first 8
decimal digits (an aligned window of 10^(digits-8) ms — about 100 seconds
for 13-digit timestamps, not 28 hours) generate equal local ids, whatever
the random suffixes: provisional local ids are not unique. -/
theorem localId_eq_of_first8_digits_eq (t1 t2 : Nat) (r1 r2 : List Char)
    (hlen : 8 ≤ (Nat.toDigits 10 t1).length)
    (hpre : (Nat.toDigits 10 t1).take 8 = (Nat.toDigits 10 t2).take 8) :
    localIdOf t1 r1 = localIdOf t2 r2 ∧
    localIdOf t1 r1 = parseIntDec ((Nat.toDigits 10 t1).take 8) := by
  have hlen2 : 8 ≤ (Nat.toDigits 10 t2).length := by
    have h1 : ((Nat.toDigits 10 t1).take 8).length = 8 := by
      rw [List.length_take]
      omega
    have h2 := congrArg List.length hpre
    rw [h1, List.length_take] at h2
    omega
  have e1 := localIdOf_eq t1 r1 hlen
  have e2 := localIdOf_eq t2 r2 hlen2
  exact ⟨by rw [e1, e2, hpre], e1⟩

/-- Concrete instance of `localId_eq_of_first8_digits_eq`: two distinct
timestamps 12345 ms apart share their first 8 digits and collide on the
same local id even with different random suffixes. -/
theorem localId_eq_of_first8_digits_eq_witness :
    8 ≤ (Nat.toDigits 10 1760000000000).length ∧
    (Nat.toDigits 10 1760000000000).take 8 = (Nat.toDigits 10 1760000012345).take 8 ∧
    (localIdOf 1760000000000 ['x'] = localIdOf 1760000012345 [] ∧
     localIdOf 1760000000000 ['x'] = parseIntDec ((Nat.toDigits 10 1760000000000).take 8)) :=
  ⟨by decide, by decide,
   localId_eq_of_first8_digits_eq _ _ _ _ (by decide) (by decide)⟩

end TaskService
